import Mathlib

/-!
# Port tracker (`src/capture.cpp`)

A shallow embedding of `CirclesTransform` and `main`.

The program is an orchestration of calls into an external computer-vision
library.  The library is not part of the repository, so it enters the model
as a parameter: `Lib` holds one function for each library routine whose
result the program uses, over abstract types

* `Mat` for images (`cv::Mat`),
* `Trk` for the internal state of the tracker behind `Ptr<Tracker>`,
* `D` for `double` (the coordinates of a `Rect2d`),
* `F` for `float` (the components of a `Vec3f`).

The environment of one run (`Env`) says whether the capture is opened after
`cap.open`, which frames the opened source delivers, and which key each
`waitKey` returns.  The source `main` opens is the video file
`refuel_port.mp4` (the live-device `cap.open(DEV)` is commented out), so the
frames are a finite list and a read past its end returns `false`; the loop is
then a structural recursion over the frames left.

One library call of `main` throws: `cap.read` returns `false` exactly when it
leaves the image empty, `rectangle` keeps an empty image empty, and `imshow`
asserts an image of positive size, so the `imshow` after a failed first read
throws.  Nothing in `main` catches the exception, so that run ends there
without an exit status of `main` (`Run.exit` is `none`).  A frame is displayed
elsewhere only after a read that returned `true`.  Every other library call is
taken to return (`waitKey(0)` returns the key the user confirms with).  The
calls a function makes are recorded, in program order, as a list of `Call`s together with the
values the program reads back (`read`, `isOpened`, `waitKey`, `update`).
Arguments are recorded as the source writes them; the value of `int(fps)`,
computed from the tick counter, is given by the environment.
-/

namespace Capture

/-- The three channels given to `cv::Scalar(v0, v1, v2)`. -/
structure Scalar where
  v0 : Int
  v1 : Int
  v2 : Int
deriving DecidableEq, Repr

/-- An integer point, `cv::Point(x, y)`. -/
structure Point where
  x : Int
  y : Int
deriving DecidableEq, Repr

/-- An integer size, `cv::Size(width, height)`. -/
structure Size where
  width : Int
  height : Int
deriving DecidableEq, Repr

/-- A rectangle with `double` fields, `cv::Rect2d(x, y, width, height)`. -/
structure Rect2d (D : Type) where
  x : D
  y : D
  width : D
  height : D
deriving DecidableEq, Repr

/-- One detected circle, `cv::Vec3f`: `c0`, `c1` the centre, `c2` the radius. -/
structure Vec3f (F : Type) where
  c0 : F
  c1 : F
  c2 : F
deriving DecidableEq, Repr

/-- The named library constants the program passes. -/
inductive Const where
  | COLOR_BGR2GRAY
  | CV_HOUGH_GRADIENT
  | FONT_HERSHEY_SIMPLEX
deriving DecidableEq, Repr

/-- The library routines whose results the program uses.  An output parameter
of the C++ signature is the result here. -/
structure Lib (Mat Trk D F : Type) where
  /-- The default-constructed image, `Mat frame;`. -/
  emptyMat : Mat
  /-- What a `cap.read(frame)` that returns `false` leaves in `frame`. -/
  readFail : Mat → Mat
  /-- The field `rows` of an image. -/
  rows : Mat → Int
  /-- The call `cvtColor(src, dst, code)`, giving `dst`. -/
  cvtColor : Mat → Const → Mat
  /-- The call `GaussianBlur(src, dst, ksize, sigmaX, sigmaY)`, giving `dst`. -/
  GaussianBlur : Mat → Size → Int → Int → Mat
  /-- The call `HoughCircles(image, circles, method, dp, minDist, param1,
  param2, minRadius, maxRadius)`, giving `circles`. -/
  HoughCircles : Mat → Const → Int → Int → Int → Int → Int → Int → List (Vec3f F)
  /-- Rounding of a `float` to `int`, `cvRound`. -/
  cvRound : F → Int
  /-- The call `circle(img, center, radius, color, thickness, lineType, shift)`,
  giving `img` afterwards. -/
  circle : Mat → Point → Int → Scalar → Int → Int → Int → Mat
  /-- The call `rectangle(img, rec, color, thickness, lineType)`, giving `img`
  afterwards. -/
  rectangle : Mat → Rect2d D → Scalar → Int → Int → Mat
  /-- The call `putText(img, text, org, fontFace, fontScale, color, thickness)`,
  giving `img` afterwards. -/
  putText : Mat → String → Point → Const → ℚ → Scalar → Int → Mat
  /-- The tracker made by `TrackerKCF::create()`. -/
  create : Trk
  /-- The call `tracker->init(image, boundingBox)`, giving the tracker
  afterwards (the program drops the returned flag). -/
  init : Trk → Mat → Rect2d D → Trk
  /-- The call `tracker->update(image, boundingBox)`: the returned flag, the
  bounding box afterwards, the tracker afterwards. -/
  update : Trk → Mat → Rect2d D → Bool × Rect2d D × Trk
  /-- Conversion of an `int` to `double`. -/
  ofInt : Int → D
  /-- Conversion of a `double` to `int`, as in `Point(bbox.x, bbox.y)`. -/
  toInt : D → Int

/-- One library call of the program with its arguments; `read`, `isOpened`,
`waitKey` and `update` also carry the value the call returned. -/
inductive Call (Mat D : Type) where
  | create
  | capOpen (filename : String)
  | isOpened (ret : Bool)
  | cout (msg : String)
  | read (ret : Bool)
  | rectangle (img : Mat) (rec : Rect2d D) (color : Scalar) (thickness lineType : Int)
  | imshow (winname : String) (img : Mat)
  | init (img : Mat) (bbox : Rect2d D)
  | waitKey (delay : Int) (ret : Int)
  | getTickCount
  | getTickFrequency
  | update (img : Mat) (bbox : Rect2d D) (ret : Bool)
  | cvtColor (src : Mat) (code : Const)
  | GaussianBlur (src : Mat) (ksize : Size) (sigmaX sigmaY : Int)
  | HoughCircles (image : Mat) (method : Const) (dp minDist param1 param2 minRadius maxRadius : Int)
  | circle (img : Mat) (center : Point) (radius : Int) (color : Scalar)
      (thickness lineType shift : Int)
  | putText (img : Mat) (text : String) (org : Point) (fontFace : Const) (fontScale : ℚ)
      (color : Scalar) (thickness : Int)
  | release
  | destroyAllWindows

namespace Call

variable {Mat D : Type}

/-- Is the call a frame read, `cap.read`? -/
def isRead : Call Mat D → Bool
  | read _ => true
  | _ => false

/-- Is the call a window display, `imshow`? -/
def isImshow : Call Mat D → Bool
  | imshow _ _ => true
  | _ => false

/-- Is the call a key wait, `waitKey`? -/
def isWaitKey : Call Mat D → Bool
  | waitKey _ _ => true
  | _ => false

/-- Is the call `tracker->init`? -/
def isInit : Call Mat D → Bool
  | init _ _ => true
  | _ => false

/-- Is the call `tracker->update`? -/
def isUpdate : Call Mat D → Bool
  | update _ _ _ => true
  | _ => false

/-- Is the call `rectangle`? -/
def isRectangle : Call Mat D → Bool
  | rectangle _ _ _ _ _ => true
  | _ => false

/-- Is the call `circle`? -/
def isCircle : Call Mat D → Bool
  | circle _ _ _ _ _ _ _ => true
  | _ => false

/-- Is the call `HoughCircles`? -/
def isHoughCircles : Call Mat D → Bool
  | HoughCircles _ _ _ _ _ _ _ _ => true
  | _ => false

/-- Is the call one that draws onto an image (`circle`, `rectangle`,
`putText`)? -/
def isDrawing : Call Mat D → Bool
  | circle _ _ _ _ _ _ _ => true
  | rectangle _ _ _ _ _ => true
  | putText _ _ _ _ _ _ _ => true
  | _ => false

/-- The centre, radius, colour and thickness of a `circle` call. -/
def circleArgs : Call Mat D → Option (Point × Int × Scalar × Int)
  | circle _ center radius color thickness _ _ => some (center, radius, color, thickness)
  | _ => none

/-- Is the call a key poll of the loop, `waitKey(1)`, that returned a quit
key? -/
def isQuitPoll : Call Mat D → Bool
  | waitKey 1 k => decide (k = 27 ∨ k = ('q'.toNat : Int))
  | _ => false

end Call

section Program

variable {Mat Trk D F : Type}

/-- The `for` loop of `CirclesTransform` over the circles still to draw: the
frame afterwards and the calls made. -/
def drawCircles (lib : Lib Mat Trk D F) : List (Vec3f F) → Mat → Mat × List (Call Mat D)
  | [], frame => (frame, [])
  | c :: cs, frame =>
    let center : Point := ⟨lib.cvRound c.c0, lib.cvRound c.c1⟩
    let radius : Int := lib.cvRound c.c2
    let frame1 := lib.circle frame center 3 ⟨0, 225, 0⟩ (-1) 8 0
    let frame2 := lib.circle frame1 center radius ⟨0, 0, 255⟩ 3 8 0
    let r := drawCircles lib cs frame2
    (r.1, Call.circle frame center 3 ⟨0, 225, 0⟩ (-1) 8 0
          :: Call.circle frame1 center radius ⟨0, 0, 255⟩ 3 8 0 :: r.2)

/-- The function `CirclesTransform(Mat & frame)`: the frame afterwards and the
calls made. -/
def CirclesTransform (lib : Lib Mat Trk D F) (frame : Mat) : Mat × List (Call Mat D) :=
  let img_gray := lib.cvtColor frame Const.COLOR_BGR2GRAY
  let _img_blur := lib.GaussianBlur img_gray ⟨5, 5⟩ 2 2
  let circles := lib.HoughCircles img_gray Const.CV_HOUGH_GRADIENT 1
    (Int.tdiv (lib.rows img_gray) 8) 80 55 0 0
  let r := drawCircles lib circles frame
  (r.1, Call.cvtColor frame Const.COLOR_BGR2GRAY
        :: Call.GaussianBlur img_gray ⟨5, 5⟩ 2 2
        :: Call.HoughCircles img_gray Const.CV_HOUGH_GRADIENT 1
             (Int.tdiv (lib.rows img_gray) 8) 80 55 0 0
        :: r.2)

/-- The environment of one run of `main`. -/
structure Env (Mat : Type) where
  /-- What `cap.isOpened()` returns after `cap.open("refuel_port.mp4")`. -/
  opened : Bool
  /-- The frames the opened source delivers, in order; a read past the last
  one returns `false`. -/
  frames : List Mat
  /-- The key `waitKey(0)` returns. -/
  confirmKey : Int
  /-- The key `waitKey(1)` returns in loop iteration `i` (from 0). -/
  keys : Nat → Int
  /-- The value of `int(fps)` in loop iteration `i` (from 0), computed by the
  program from the tick counter. -/
  fps : Nat → Int

/-- The local variables of `main` that live across loop iterations. -/
structure Vars (Mat Trk D : Type) where
  frame : Mat
  bbox : Rect2d D
  tracker : Trk

/-- What one pass through the body of the `while` loop gives. -/
structure BodyResult (Mat Trk D : Type) where
  vars : Vars Mat Trk D
  calls : List (Call Mat D)
  quitKey : Int

/-- The `if (chk) ... else ...` of the loop body: on success the bounding box
and the name of the tracked object are drawn, on failure the failure message.
The frame afterwards and the calls made. -/
def drawStatus (lib : Lib Mat Trk D F) (chk : Bool) (frame : Mat) (bbox : Rect2d D) :
    Mat × List (Call Mat D) :=
  if chk then
    let frame1 := lib.rectangle frame bbox ⟨0, 255, 0⟩ 2 1
    let org : Point := ⟨lib.toInt bbox.x, lib.toInt bbox.y⟩
    (lib.putText frame1 "Refueling Port" org Const.FONT_HERSHEY_SIMPLEX 0.75 ⟨255, 0, 0⟩ 2,
     [Call.rectangle frame bbox ⟨0, 255, 0⟩ 2 1,
      Call.putText frame1 "Refueling Port" org Const.FONT_HERSHEY_SIMPLEX 0.75 ⟨255, 0, 0⟩ 2])
  else
    (lib.putText frame "Tracking failure detected" ⟨200, 80⟩
       Const.FONT_HERSHEY_SIMPLEX 1.00 ⟨0, 0, 255⟩ 2,
     [Call.putText frame "Tracking failure detected" ⟨200, 80⟩
        Const.FONT_HERSHEY_SIMPLEX 1.00 ⟨0, 0, 255⟩ 2])

/-- The two captions of the loop body, the title and `"FPS : " + SSTR(int(fps))`:
the frame afterwards and the calls made. -/
def drawCaptions (lib : Lib Mat Trk D F) (fps : Int) (frame : Mat) :
    Mat × List (Call Mat D) :=
  let frame1 := lib.putText frame "PORT TRACKER" ⟨100, 20⟩
    Const.FONT_HERSHEY_SIMPLEX 0.75 ⟨255, 170, 50⟩ 2
  let text := "FPS : " ++ toString fps
  (lib.putText frame1 text ⟨200, 50⟩ Const.FONT_HERSHEY_SIMPLEX 1.00 ⟨255, 170, 50⟩ 2,
   [Call.putText frame "PORT TRACKER" ⟨100, 20⟩
      Const.FONT_HERSHEY_SIMPLEX 0.75 ⟨255, 170, 50⟩ 2,
    Call.putText frame1 text ⟨200, 50⟩ Const.FONT_HERSHEY_SIMPLEX 1.00 ⟨255, 170, 50⟩ 2])

/-- The body of the `while` loop in iteration `i`, entered with the frame
just read in `v.frame`, up to and with `int quitKey = waitKey(1)`.  (The two
operands of the division for `fps` are recorded left to right.) -/
def loopBody (lib : Lib Mat Trk D F) (env : Env Mat) (i : Nat) (v : Vars Mat Trk D) :
    BodyResult Mat Trk D :=
  let u := lib.update v.tracker v.frame v.bbox
  let chk := u.1
  let bbox := u.2.1
  let tracker := u.2.2
  let ct := CirclesTransform lib v.frame
  let st := drawStatus lib chk ct.1 bbox
  let cp := drawCaptions lib (env.fps i) st.1
  let quitKey := env.keys i
  { vars := { frame := cp.1, bbox := bbox, tracker := tracker }
    calls :=
      [Call.getTickCount, Call.update v.frame v.bbox chk, Call.getTickFrequency,
       Call.getTickCount]
      ++ ct.2 ++ st.2 ++ cp.2
      ++ [Call.imshow "Port_Tracker" cp.1, Call.waitKey 1 quitKey]
    quitKey := quitKey }

/-- The loop `while (cap.read(frame)) ...` from iteration `i` on, with `src`
the frames the source still has: the variables and the calls made, up to the
exit from the loop. -/
def loop (lib : Lib Mat Trk D F) (env : Env Mat) :
    Nat → List Mat → Vars Mat Trk D → Vars Mat Trk D × List (Call Mat D)
  | _, [], v => ({ v with frame := lib.readFail v.frame }, [Call.read false])
  | i, f :: rest, v =>
    let b := loopBody lib env i { v with frame := f }
    if b.quitKey = 27 ∨ b.quitKey = ('q'.toNat : Int) then
      (b.vars, Call.read true :: b.calls)
    else
      let r := loop lib env (i + 1) rest b.vars
      (r.1, Call.read true :: (b.calls ++ r.2))

/-- The outcome of a run of `main`: the exit status `main` returns, `none`
when `main` does not return because a library call threw, and the calls
made. -/
structure Run (Mat D : Type) where
  exit : Option Int
  trace : List (Call Mat D)

/-- The bounding box `Rect2d bbox(760, 400, 270, 200)`. -/
def initialBBox (lib : Lib Mat Trk D F) : Rect2d D :=
  ⟨lib.ofInt 760, lib.ofInt 400, lib.ofInt 270, lib.ofInt 200⟩

/-- The first `cap.read(frame)` of `main`: the flag, the frame afterwards and
the frames the source still has. -/
def firstRead (lib : Lib Mat Trk D F) (env : Env Mat) : Bool × Mat × List Mat :=
  match env.frames with
  | [] => (false, lib.readFail lib.emptyMat, [])
  | f :: rest => (true, f, rest)

/-- The function `main`.  After a first read that returned `false` the frame
is empty and `imshow` throws on it (see the head of the file); the run ends
with that call. -/
def main (lib : Lib Mat Trk D F) (env : Env Mat) : Run Mat D :=
  let tracker := lib.create
  if !env.opened then
    { exit := some 1
      trace := [Call.create, Call.capOpen "refuel_port.mp4", Call.isOpened false,
                Call.cout "ERROR! No video was found"] }
  else
    let rd := firstRead lib env
    let chk := rd.1
    let frame := rd.2.1
    let bbox := initialBBox lib
    let frame1 := lib.rectangle frame bbox ⟨255, 0, 0⟩ 2 1
    if !chk then
      { exit := none
        trace :=
          [Call.create, Call.capOpen "refuel_port.mp4", Call.isOpened true,
           Call.read chk,
           Call.rectangle frame bbox ⟨255, 0, 0⟩ 2 1,
           Call.imshow "Port_Tracker" frame1] }
    else
      let tracker1 := lib.init tracker frame1 bbox
      let l := loop lib env 0 rd.2.2 { frame := frame1, bbox := bbox, tracker := tracker1 }
      { exit := some 0
        trace :=
          [Call.create, Call.capOpen "refuel_port.mp4", Call.isOpened true,
           Call.read chk,
           Call.rectangle frame bbox ⟨255, 0, 0⟩ 2 1,
           Call.imshow "Port_Tracker" frame1,
           Call.init frame1 bbox,
           Call.waitKey 0 env.confirmKey]
          ++ l.2 ++ [Call.release, Call.destroyAllWindows] }

/-- The calls of one pass through the loop body after its update call. -/
def bodyTail (lib : Lib Mat Trk D F) (env : Env Mat) (i : Nat) (v : Vars Mat Trk D) :
    List (Call Mat D) :=
  (loopBody lib env i v).calls.drop 2

/-- The local variables of `main` on entry to the loop. -/
def startVars (lib : Lib Mat Trk D F) (env : Env Mat) : Vars Mat Trk D :=
  { frame := lib.rectangle (firstRead lib env).2.1 (initialBBox lib) ⟨255, 0, 0⟩ 2 1
    bbox := initialBBox lib
    tracker := lib.init lib.create
      (lib.rectangle (firstRead lib env).2.1 (initialBBox lib) ⟨255, 0, 0⟩ 2 1)
      (initialBBox lib) }

/-- The calls of `main` before the loop, when the source opens. -/
def setupCalls (lib : Lib Mat Trk D F) (env : Env Mat) : List (Call Mat D) :=
  [Call.create, Call.capOpen "refuel_port.mp4", Call.isOpened true,
   Call.read (firstRead lib env).1,
   Call.rectangle (firstRead lib env).2.1 (initialBBox lib) ⟨255, 0, 0⟩ 2 1,
   Call.imshow "Port_Tracker" (startVars lib env).frame,
   Call.init (startVars lib env).frame (initialBBox lib),
   Call.waitKey 0 env.confirmKey]

/-- The library `lib` with the success flag of `update` replaced by `flag`;
the bounding box and the tracker state `update` gives are kept. -/
def Lib.withFlags (lib : Lib Mat Trk D F) (flag : Trk → Mat → Rect2d D → Bool) :
    Lib Mat Trk D F :=
  { lib with update := fun t m b => (flag t m b, (lib.update t m b).2) }

end Program

/-! ## A concrete library and concrete runs, for evaluating the program -/

/-- A concrete library: an image is the list of the operations applied to it,
newest first (1 grayscale, 2 blur, 3 circle, 4 rectangle, 5 text) over the
frame number; the detector finds one circle exactly in a blurred image; the
tracker state counts the calls and every update reports failure. -/
def demoLib : Lib (List Nat) Nat Int Int where
  emptyMat := []
  readFail := fun _ => []
  rows := fun m => m.length
  cvtColor := fun m _ => 1 :: m
  GaussianBlur := fun m _ _ _ => 2 :: m
  HoughCircles := fun m _ _ _ _ _ _ _ => if m.head? = some 2 then [⟨10, 20, 5⟩] else []
  cvRound := id
  circle := fun m _ _ _ _ _ _ => 3 :: m
  rectangle := fun m _ _ _ _ => 4 :: m
  putText := fun m _ _ _ _ _ _ => 5 :: m
  create := 0
  init := fun t _ _ => t + 1
  update := fun t _ b => (false, b, t + 1)
  ofInt := id
  toInt := id

/-- The library `demoLib` with every update reporting success. -/
def demoLibOk : Lib (List Nat) Nat Int Int :=
  demoLib.withFlags (fun _ _ _ => true)

/-- A run in which the source does not open. -/
def closedEnv : Env (List Nat) where
  opened := false
  frames := []
  confirmKey := 32
  keys := fun _ => -1
  fps := fun _ => 30

/-- A run over a source of three frames in which no key is pressed during
the loop. -/
def threeFrames : Env (List Nat) where
  opened := true
  frames := [[100], [101], [102]]
  confirmKey := 32
  keys := fun _ => -1
  fps := fun _ => 30

/-- A run over a source of three frames in which `q` is pressed in the first
loop iteration. -/
def quitAtOnce : Env (List Nat) where
  opened := true
  frames := [[100], [101], [102]]
  confirmKey := 32
  keys := fun _ => 113
  fps := fun _ => 30

/-- A run over a source of two frames in which no key is pressed during the
loop: one loop iteration, on the frame `[101]`. -/
def twoFrames : Env (List Nat) where
  opened := true
  frames := [[100], [101]]
  confirmKey := 32
  keys := fun _ => -1
  fps := fun _ => 30

/-- A run over a source that opens and delivers no frame. -/
def noFrames : Env (List Nat) where
  opened := true
  frames := []
  confirmKey := 32
  keys := fun _ => -1
  fps := fun _ => 30

/-! ## The calls of each part of the program -/

section Lemmas

variable {Mat Trk D F : Type}

theorem q_code : (('q'.toNat : Nat) : Int) = 113 := by decide

theorem countP_drawCircles (lib : Lib Mat Trk D F) (p : Call Mat D → Bool)
    (hp : ∀ img c r col t l s, p (Call.circle img c r col t l s) = false)
    (cs : List (Vec3f F)) (frame : Mat) :
    List.countP p (drawCircles lib cs frame).2 = 0 := by
  induction cs generalizing frame with
  | nil => simp [drawCircles]
  | cons c cs ih => simp [drawCircles, List.countP_cons, hp, ih]

theorem countP_CirclesTransform (lib : Lib Mat Trk D F) (p : Call Mat D → Bool)
    (hp : ∀ img c r col t l s, p (Call.circle img c r col t l s) = false)
    (h1 : ∀ src code, p (Call.cvtColor src code) = false)
    (h2 : ∀ src k sx sy, p (Call.GaussianBlur src k sx sy) = false)
    (h3 : ∀ im m a b c d e f, p (Call.HoughCircles im m a b c d e f) = false)
    (frame : Mat) :
    List.countP p (CirclesTransform lib frame).2 = 0 := by
  simp [CirclesTransform, List.countP_cons, h1, h2, h3, countP_drawCircles lib p hp]

theorem loopBody_quitKey (lib : Lib Mat Trk D F) (env : Env Mat) (i : Nat)
    (v : Vars Mat Trk D) : (loopBody lib env i v).quitKey = env.keys i := rfl

theorem countP_loopBody_isRead (lib : Lib Mat Trk D F) (env : Env Mat) (i : Nat)
    (v : Vars Mat Trk D) : List.countP Call.isRead (loopBody lib env i v).calls = 0 := by
  have h := countP_CirclesTransform lib Call.isRead (fun _ _ _ _ _ _ _ => rfl)
    (fun _ _ => rfl) (fun _ _ _ _ => rfl) (fun _ _ _ _ _ _ _ _ => rfl) v.frame
  cases hc : (lib.update v.tracker v.frame v.bbox).1 <;>
    simp [loopBody, drawStatus, drawCaptions, List.countP_append, List.countP_cons,
      Call.isRead, h, hc]

theorem countP_loopBody_isUpdate (lib : Lib Mat Trk D F) (env : Env Mat) (i : Nat)
    (v : Vars Mat Trk D) : List.countP Call.isUpdate (loopBody lib env i v).calls = 1 := by
  have h := countP_CirclesTransform lib Call.isUpdate (fun _ _ _ _ _ _ _ => rfl)
    (fun _ _ => rfl) (fun _ _ _ _ => rfl) (fun _ _ _ _ _ _ _ _ => rfl) v.frame
  cases hc : (lib.update v.tracker v.frame v.bbox).1 <;>
    simp [loopBody, drawStatus, drawCaptions, List.countP_append, List.countP_cons,
      Call.isUpdate, h, hc]

theorem countP_loopBody_isInit (lib : Lib Mat Trk D F) (env : Env Mat) (i : Nat)
    (v : Vars Mat Trk D) : List.countP Call.isInit (loopBody lib env i v).calls = 0 := by
  have h := countP_CirclesTransform lib Call.isInit (fun _ _ _ _ _ _ _ => rfl)
    (fun _ _ => rfl) (fun _ _ _ _ => rfl) (fun _ _ _ _ _ _ _ _ => rfl) v.frame
  cases hc : (lib.update v.tracker v.frame v.bbox).1 <;>
    simp [loopBody, drawStatus, drawCaptions, List.countP_append, List.countP_cons,
      Call.isInit, h, hc]

theorem countP_loopBody_isQuitPoll (lib : Lib Mat Trk D F) (env : Env Mat) (i : Nat)
    (v : Vars Mat Trk D) (hk : ¬ (env.keys i = 27 ∨ env.keys i = 113)) :
    List.countP Call.isQuitPoll (loopBody lib env i v).calls = 0 := by
  have h := countP_CirclesTransform lib Call.isQuitPoll (fun _ _ _ _ _ _ _ => rfl)
    (fun _ _ => rfl) (fun _ _ _ _ => rfl) (fun _ _ _ _ _ _ _ _ => rfl) v.frame
  have hk2 : ¬ env.keys i = 27 ∧ ¬ env.keys i = 113 := not_or.mp hk
  cases hc : (lib.update v.tracker v.frame v.bbox).1 <;>
    simp [loopBody, drawStatus, drawCaptions, List.countP_append, List.countP_cons,
      Call.isQuitPoll, h, hc, hk2]

theorem loop_nil (lib : Lib Mat Trk D F) (env : Env Mat) (i : Nat) (v : Vars Mat Trk D) :
    loop lib env i [] v = ({ v with frame := lib.readFail v.frame }, [Call.read false]) := rfl

theorem loop_cons_quit (lib : Lib Mat Trk D F) (env : Env Mat) (i : Nat) (f : Mat)
    (rest : List Mat) (v : Vars Mat Trk D) (hk : env.keys i = 27 ∨ env.keys i = 113) :
    loop lib env i (f :: rest) v =
      ((loopBody lib env i { v with frame := f }).vars,
       Call.read true :: (loopBody lib env i { v with frame := f }).calls) := by
  have hk2 : env.keys i = 27 ∨ env.keys i = (('q'.toNat : Nat) : Int) := by
    rw [q_code]; exact hk
  simp only [loop, loopBody_quitKey, if_pos hk2]

theorem loop_cons_go (lib : Lib Mat Trk D F) (env : Env Mat) (i : Nat) (f : Mat)
    (rest : List Mat) (v : Vars Mat Trk D) (hk : ¬ (env.keys i = 27 ∨ env.keys i = 113)) :
    loop lib env i (f :: rest) v =
      ((loop lib env (i + 1) rest (loopBody lib env i { v with frame := f }).vars).1,
       Call.read true :: ((loopBody lib env i { v with frame := f }).calls ++
         (loop lib env (i + 1) rest (loopBody lib env i { v with frame := f }).vars).2)) := by
  have hk2 : ¬ (env.keys i = 27 ∨ env.keys i = (('q'.toNat : Nat) : Int)) := by
    rw [q_code]; exact hk
  simp only [loop, loopBody_quitKey, if_neg hk2]

theorem countP_loop_isInit (lib : Lib Mat Trk D F) (env : Env Mat) (i : Nat)
    (src : List Mat) (v : Vars Mat Trk D) :
    List.countP Call.isInit (loop lib env i src v).2 = 0 := by
  induction src generalizing i v with
  | nil => simp [loop_nil, Call.isInit]
  | cons f rest ih =>
    by_cases hk : env.keys i = 27 ∨ env.keys i = 113
    · rw [loop_cons_quit lib env i f rest v hk]
      simp [List.countP_cons, Call.isInit, countP_loopBody_isInit]
    · rw [loop_cons_go lib env i f rest v hk]
      simp [List.countP_cons, List.countP_append, Call.isInit, countP_loopBody_isInit, ih]

theorem split_before {α : Type} (p q : α → Bool) (A B : List α) (x : α)
    (hA : List.countP p A = 0) (hx : p x = false) (hq : q x = true)
    (pre post : List α) (c : α) (h : A ++ x :: B = pre ++ c :: post) (hc : p c = true) :
    1 ≤ List.countP q pre := by
  rcases List.append_eq_append_iff.mp h with ⟨a, h1, h2⟩ | ⟨a, h1, h2⟩
  · cases a with
    | nil =>
      simp at h2
      rw [h2.1] at hx; simp [hx] at hc
    | cons y ys =>
      simp at h2
      rw [h1, ← h2.1]
      simp [List.countP_append, List.countP_cons, hq]
      omega
  · cases a with
    | nil =>
      simp at h2
      rw [← h2.1] at hx; simp [hx] at hc
    | cons y ys =>
      simp at h2
      rw [h1, ← h2.1] at hA
      simp [List.countP_append, List.countP_cons, hc] at hA

/-- The calls of one pass through the loop body end with the key poll. -/
theorem loopBody_calls_split (lib : Lib Mat Trk D F) (env : Env Mat) (i : Nat)
    (v : Vars Mat Trk D) :
    ∃ pre, (loopBody lib env i v).calls = pre ++ [Call.waitKey 1 (env.keys i)] ∧
      List.countP Call.isRead pre = 0 ∧ List.countP Call.isUpdate pre = 1 := by
  have h1 := countP_loopBody_isRead lib env i v
  have h2 := countP_loopBody_isUpdate lib env i v
  have h : ∃ pre, (loopBody lib env i v).calls = pre ++ [Call.waitKey 1 (env.keys i)] := by
    unfold loopBody
    exact ⟨_, (List.append_assoc _ [_] [_]).symm⟩
  obtain ⟨pre, hpre⟩ := h
  refine ⟨pre, hpre, ?_, ?_⟩
  · rw [hpre] at h1
    simpa [List.countP_append, List.countP_cons, Call.isRead] using h1
  · rw [hpre] at h2
    simpa [List.countP_append, List.countP_cons, Call.isUpdate] using h2

theorem loop_starts_with_read (lib : Lib Mat Trk D F) (env : Env Mat) (i : Nat)
    (src : List Mat) (v : Vars Mat Trk D) :
    ∃ ok post, (loop lib env i src v).2 = Call.read ok :: post := by
  cases src with
  | nil => exact ⟨false, [], rfl⟩
  | cons f rest =>
    by_cases hk : env.keys i = 27 ∨ env.keys i = 113
    · rw [loop_cons_quit lib env i f rest v hk]; exact ⟨true, _, rfl⟩
    · rw [loop_cons_go lib env i f rest v hk]; exact ⟨true, _, rfl⟩

/-- Iteration `i + j` of the loop started at iteration `i`, when it is reached:
its key poll splits the calls of the loop, after `j + 1` reads and `j + 1`
updates; a quit key ends the calls there, any other key is followed by a
read. -/
theorem loop_iteration (lib : Lib Mat Trk D F) (env : Env Mat) (j : Nat) :
    ∀ (i : Nat) (src : List Mat) (v : Vars Mat Trk D), j < src.length →
      (∀ t, t < j → ¬ (env.keys (i + t) = 27 ∨ env.keys (i + t) = 113)) →
      ∃ pre post, (loop lib env i src v).2 = pre ++ Call.waitKey 1 (env.keys (i + j)) :: post ∧
        List.countP Call.isRead pre = j + 1 ∧ List.countP Call.isUpdate pre = j + 1 ∧
        ((env.keys (i + j) = 27 ∨ env.keys (i + j) = 113) → post = []) ∧
        (¬ (env.keys (i + j) = 27 ∨ env.keys (i + j) = 113) →
          ∃ ok rest, post = Call.read ok :: rest) := by
  induction j with
  | zero =>
    intro i src v hj _
    cases src with
    | nil => simp at hj
    | cons f rest =>
      obtain ⟨bpre, hb, hr, hu⟩ := loopBody_calls_split lib env i { v with frame := f }
      by_cases hk : env.keys i = 27 ∨ env.keys i = 113
      · refine ⟨Call.read true :: bpre, [], ?_, ?_, ?_, fun _ => rfl, fun h => absurd hk h⟩
        · rw [loop_cons_quit lib env i f rest v hk, hb]; simp
        · simp [List.countP_cons, Call.isRead, hr]
        · simp [List.countP_cons, Call.isUpdate, hu]
      · refine ⟨Call.read true :: bpre,
          (loop lib env (i + 1) rest (loopBody lib env i { v with frame := f }).vars).2,
          ?_, ?_, ?_, fun h => absurd h hk, fun _ => loop_starts_with_read lib env _ _ _⟩
        · rw [loop_cons_go lib env i f rest v hk, hb]; simp
        · simp [List.countP_cons, Call.isRead, hr]
        · simp [List.countP_cons, Call.isUpdate, hu]
  | succ j ih =>
    intro i src v hj hno
    cases src with
    | nil => simp at hj
    | cons f rest =>
      have hk : ¬ (env.keys i = 27 ∨ env.keys i = 113) := by
        simpa using hno 0 (Nat.succ_pos j)
      have hj2 : j < rest.length := by simpa using hj
      have hno2 : ∀ t, t < j → ¬ (env.keys (i + 1 + t) = 27 ∨ env.keys (i + 1 + t) = 113) := by
        intro t ht
        have := hno (t + 1) (Nat.succ_lt_succ ht)
        rwa [show i + (t + 1) = i + 1 + t by omega] at this
      obtain ⟨pre, post, hsplit, hr, hu, hq, hn⟩ :=
        ih (i + 1) rest (loopBody lib env i { v with frame := f }).vars hj2 hno2
      rw [show i + 1 + j = i + (j + 1) by omega] at hsplit hq hn
      refine ⟨Call.read true :: ((loopBody lib env i { v with frame := f }).calls ++ pre),
        post, ?_, ?_, ?_, hq, hn⟩
      · rw [loop_cons_go lib env i f rest v hk, hsplit]; simp
      · simp [List.countP_cons, List.countP_append, Call.isRead, hr,
          countP_loopBody_isRead]
      · simp [List.countP_cons, List.countP_append, Call.isUpdate, hu,
          countP_loopBody_isUpdate]
        omega

/-- The loop over a source that delivers the frames `src` and then ends,
when no quit key is polled: it runs once for every frame and ends on the
failed read. -/
theorem loop_exhaust (lib : Lib Mat Trk D F) (env : Env Mat) (src : List Mat) :
    ∀ (i : Nat) (v : Vars Mat Trk D),
      (∀ t, t < src.length → ¬ (env.keys (i + t) = 27 ∨ env.keys (i + t) = 113)) →
      List.countP Call.isRead (loop lib env i src v).2 = src.length + 1 ∧
      List.countP Call.isUpdate (loop lib env i src v).2 = src.length ∧
      List.countP Call.isQuitPoll (loop lib env i src v).2 = 0 ∧
      ∃ pre, (loop lib env i src v).2 = pre ++ [Call.read false] := by
  induction src with
  | nil =>
    intro i v _
    refine ⟨?_, ?_, ?_, [], ?_⟩ <;> simp [loop_nil, Call.isRead, Call.isUpdate, Call.isQuitPoll]
  | cons f rest ih =>
    intro i v hno
    have hk : ¬ (env.keys i = 27 ∨ env.keys i = 113) := by
      simpa using hno 0 (by simp)
    have hno2 : ∀ t, t < rest.length →
        ¬ (env.keys (i + 1 + t) = 27 ∨ env.keys (i + 1 + t) = 113) := by
      intro t ht
      have := hno (t + 1) (by simpa using ht)
      rwa [show i + (t + 1) = i + 1 + t by omega] at this
    obtain ⟨hr, hu, hq, pre, hpre⟩ :=
      ih (i + 1) (loopBody lib env i { v with frame := f }).vars hno2
    rw [loop_cons_go lib env i f rest v hk]
    refine ⟨?_, ?_, ?_, Call.read true :: ((loopBody lib env i { v with frame := f }).calls ++ pre), ?_⟩
    · simp [List.countP_cons, List.countP_append, Call.isRead, hr, countP_loopBody_isRead]
    · simp [List.countP_cons, List.countP_append, Call.isUpdate, hu, countP_loopBody_isUpdate]
      omega
    · simp [List.countP_cons, List.countP_append, Call.isQuitPoll, hq,
        countP_loopBody_isQuitPoll lib env i _ hk]
    · simp [hpre]

theorem split_first {α : Type} (p : α → Bool) (A B : List α) (x : α)
    (hA : List.countP p A = 0) (pre post : List α) (c : α)
    (h : A ++ x :: B = pre ++ c :: post) (hc : p c = true) :
    (pre = A ∧ c = x ∧ post = B) ∨ ∃ a, B = a ++ c :: post := by
  rcases List.append_eq_append_iff.mp h with ⟨a, h1, h2⟩ | ⟨a, h1, h2⟩
  · cases a with
    | nil =>
      simp at h2
      exact Or.inl ⟨by simpa using h1, h2.1.symm, h2.2.symm⟩
    | cons y ys =>
      simp at h2
      exact Or.inr ⟨ys, h2.2⟩
  · cases a with
    | nil =>
      simp at h2
      exact Or.inl ⟨by simpa using h1.symm, h2.1, h2.2⟩
    | cons y ys =>
      simp at h2
      rw [h1, ← h2.1] at hA
      simp [List.countP_append, List.countP_cons, hc] at hA

theorem split_right {α : Type} (p : α → Bool) (B1 B2 : List α)
    (hB : List.countP p B1 = 0) (pre post : List α) (c : α)
    (h : B1 ++ B2 = pre ++ c :: post) (hc : p c = true) :
    ∃ a, B2 = a ++ c :: post := by
  rcases List.append_eq_append_iff.mp h with ⟨a, _, h2⟩ | ⟨a, h1, h2⟩
  · exact ⟨a, h2⟩
  · cases a with
    | nil => exact ⟨[], by simpa using h2.symm⟩
    | cons y ys =>
      simp at h2
      rw [h1, ← h2.1] at hB
      simp [List.countP_append, List.countP_cons, hc] at hB

theorem split_left {α : Type} (p : α → Bool) (B1 B2 : List α)
    (hB : List.countP p B2 = 0) (pre post : List α) (c : α)
    (h : B1 ++ B2 = pre ++ c :: post) (hc : p c = true) :
    ∃ post1, B1 = pre ++ c :: post1 ∧ post = post1 ++ B2 := by
  rcases List.append_eq_append_iff.mp h.symm with ⟨a, h1, h2⟩ | ⟨a, h1, h2⟩
  · cases a with
    | nil =>
      simp at h2
      rw [← h2] at hB
      simp [List.countP_cons, hc] at hB
    | cons y ys =>
      simp at h2
      refine ⟨ys, ?_, h2.2⟩
      rw [h1, h2.1]
  · rw [h2] at hB
    simp [List.countP_append, List.countP_cons, hc] at hB

theorem loopBody_calls_eq (lib : Lib Mat Trk D F) (env : Env Mat) (i : Nat)
    (v : Vars Mat Trk D) :
    (loopBody lib env i v).calls =
      Call.getTickCount :: Call.update v.frame v.bbox (lib.update v.tracker v.frame v.bbox).1
        :: bodyTail lib env i v := rfl

theorem countP_bodyTail_isUpdate (lib : Lib Mat Trk D F) (env : Env Mat) (i : Nat)
    (v : Vars Mat Trk D) : List.countP Call.isUpdate (bodyTail lib env i v) = 0 := by
  have h := countP_loopBody_isUpdate lib env i v
  rw [loopBody_calls_eq] at h
  simpa [List.countP_cons, Call.isUpdate] using h

/-- Every update call among the calls of the loop is the update of one pass
through the loop body, and the other calls of that pass follow it. -/
theorem loop_update_anatomy (lib : Lib Mat Trk D F) (env : Env Mat) (src : List Mat) :
    ∀ (i : Nat) (v : Vars Mat Trk D) (pre post : List (Call Mat D)) (img : Mat)
      (b : Rect2d D) (ok : Bool),
      (loop lib env i src v).2 = pre ++ Call.update img b ok :: post →
      ∃ k trk later, post = bodyTail lib env k ⟨img, b, trk⟩ ++ later ∧
        ok = (lib.update trk img b).1 := by
  induction src with
  | nil =>
    intro i v pre post img b ok h
    have := congrArg (List.countP Call.isUpdate) h
    simp [loop_nil, List.countP_cons, List.countP_append, Call.isUpdate] at this
    omega
  | cons f rest ih =>
    intro i v pre post img b ok h
    by_cases hk : env.keys i = 27 ∨ env.keys i = 113
    · rw [loop_cons_quit lib env i f rest v hk, loopBody_calls_eq] at h
      rcases split_first Call.isUpdate [Call.read true, Call.getTickCount] _ _ rfl
        pre post _ h rfl with ⟨_, h2, h3⟩ | ⟨a, h2⟩
      · injection h2 with e1 e2 e3
        subst e1 e2
        exact ⟨i, v.tracker, [], by simpa using h3, e3⟩
      · have := congrArg (List.countP Call.isUpdate) h2
        simp [countP_bodyTail_isUpdate, List.countP_cons, List.countP_append,
          Call.isUpdate] at this
        omega
    · rw [loop_cons_go lib env i f rest v hk, loopBody_calls_eq] at h
      rcases split_first Call.isUpdate [Call.read true, Call.getTickCount] _ _ rfl
        pre post _ h rfl with ⟨_, h2, h3⟩ | ⟨a, h2⟩
      · injection h2 with e1 e2 e3
        subst e1 e2
        exact ⟨i, v.tracker, _, h3, e3⟩
      · obtain ⟨a2, h4⟩ := split_right Call.isUpdate _ _
          (countP_bodyTail_isUpdate lib env i _) a post _ h2 rfl
        exact ih _ _ a2 post img b ok h4

theorem firstRead_ok (lib : Lib Mat Trk D F) (env : Env Mat) (f : Mat) (fs : List Mat)
    (hf : env.frames = f :: fs) : firstRead lib env = (true, f, fs) := by
  simp [firstRead, hf]

theorem firstRead_none (lib : Lib Mat Trk D F) (env : Env Mat) (hf : env.frames = []) :
    firstRead lib env = (false, lib.readFail lib.emptyMat, []) := by
  simp [firstRead, hf]

theorem firstRead_flag_of_ne (lib : Lib Mat Trk D F) (env : Env Mat)
    (hf : env.frames ≠ []) : (firstRead lib env).1 = true := by
  cases hfr : env.frames with
  | nil => exact absurd hfr hf
  | cons f fs => rw [firstRead_ok lib env f fs hfr]

/-- The run of `main` when the source opens and the first read gives a
frame. -/
theorem main_opened (lib : Lib Mat Trk D F) (env : Env Mat) (h : env.opened = true)
    (hf : env.frames ≠ []) :
    main lib env =
      { exit := some 0
        trace := setupCalls lib env
          ++ (loop lib env 0 (firstRead lib env).2.2 (startVars lib env)).2
          ++ [Call.release, Call.destroyAllWindows] } := by
  simp [main, h, setupCalls, startVars, firstRead_flag_of_ne lib env hf]

/-- The run of `main` when the source opens and delivers no frame. -/
theorem main_frameless (lib : Lib Mat Trk D F) (env : Env Mat) (h : env.opened = true)
    (hf : env.frames = []) :
    main lib env =
      { exit := none
        trace :=
          [Call.create, Call.capOpen "refuel_port.mp4", Call.isOpened true,
           Call.read false,
           Call.rectangle (lib.readFail lib.emptyMat) (initialBBox lib) ⟨255, 0, 0⟩ 2 1,
           Call.imshow "Port_Tracker"
             (lib.rectangle (lib.readFail lib.emptyMat) (initialBBox lib) ⟨255, 0, 0⟩ 2 1)] } := by
  simp [main, h, firstRead_none lib env hf]

theorem main_closed (lib : Lib Mat Trk D F) (env : Env Mat) (h : env.opened = false) :
    main lib env =
      { exit := some 1
        trace := [Call.create, Call.capOpen "refuel_port.mp4", Call.isOpened false,
                  Call.cout "ERROR! No video was found"] } := by
  simp [main, h]

theorem firstRead_rest (lib : Lib Mat Trk D F) (env : Env Mat) :
    (firstRead lib env).2.2 = env.frames.tail := by
  unfold firstRead
  cases env.frames <;> rfl

/-- A run of `main` that does not reach the loop has no update call and no
`init` call. -/
theorem main_no_loop (lib : Lib Mat Trk D F) (env : Env Mat)
    (h : env.opened = false ∨ env.frames = []) :
    List.countP Call.isUpdate (main lib env).trace = 0 ∧
    List.countP Call.isInit (main lib env).trace = 0 := by
  cases hopen : env.opened with
  | false => rw [main_closed lib env hopen]; exact ⟨rfl, rfl⟩
  | true =>
    rcases h with h | h
    · rw [hopen] at h; cases h
    · rw [main_frameless lib env hopen h]; exact ⟨rfl, rfl⟩

theorem main_no_loop_of_not (lib : Lib Mat Trk D F) (env : Env Mat)
    (h : ¬ (env.opened = true ∧ env.frames ≠ [])) :
    List.countP Call.isUpdate (main lib env).trace = 0 ∧
    List.countP Call.isInit (main lib env).trace = 0 := by
  refine main_no_loop lib env ?_
  by_cases hopen : env.opened = true
  · exact Or.inr (by_contra fun hf => h ⟨hopen, hf⟩)
  · exact Or.inl (by simpa using hopen)

/-- Every update call of `main` is the update of one pass through the loop
body, and the other calls of that pass follow it. -/
theorem main_update_anatomy (lib : Lib Mat Trk D F) (env : Env Mat)
    (pre post : List (Call Mat D)) (img : Mat) (b : Rect2d D) (ok : Bool)
    (h : (main lib env).trace = pre ++ Call.update img b ok :: post) :
    ∃ k trk later, post = bodyTail lib env k ⟨img, b, trk⟩ ++ later ∧
      ok = (lib.update trk img b).1 := by
  by_cases hrun : env.opened = true ∧ env.frames ≠ []
  case neg =>
    have h0 : List.countP Call.isUpdate (pre ++ Call.update img b ok :: post) = 0 := by
      rw [← h]
      refine (main_no_loop lib env ?_).1
      by_cases hopen : env.opened = true
      · exact Or.inr (by_contra fun hf => hrun ⟨hopen, hf⟩)
      · exact Or.inl (by simpa using hopen)
    simp [List.countP_append, List.countP_cons, Call.isUpdate] at h0
  case pos =>
    rw [main_opened lib env hrun.1 hrun.2] at h
    simp only [List.append_assoc] at h
    obtain ⟨a, h2⟩ := split_right Call.isUpdate (setupCalls lib env) _ rfl pre post _ h rfl
    obtain ⟨post1, h3, h4⟩ := split_left Call.isUpdate _ [Call.release, Call.destroyAllWindows]
      rfl a post _ h2 rfl
    obtain ⟨k, trk, later, h5, h6⟩ := loop_update_anatomy lib env _ _ _ a post1 img b ok h3
    exact ⟨k, trk, later ++ [Call.release, Call.destroyAllWindows], by simp [h4, h5], h6⟩

theorem bodyTail_eq (lib : Lib Mat Trk D F) (env : Env Mat) (i : Nat)
    (v : Vars Mat Trk D) :
    bodyTail lib env i v =
      ([Call.getTickFrequency, Call.getTickCount] ++ (CirclesTransform lib v.frame).2
        ++ (drawStatus lib (lib.update v.tracker v.frame v.bbox).1
              (CirclesTransform lib v.frame).1 (lib.update v.tracker v.frame v.bbox).2.1).2
        ++ (drawCaptions lib (env.fps i)
              (drawStatus lib (lib.update v.tracker v.frame v.bbox).1
                (CirclesTransform lib v.frame).1
                (lib.update v.tracker v.frame v.bbox).2.1).1).2)
      ++ [Call.imshow "Port_Tracker" (loopBody lib env i v).vars.frame,
          Call.waitKey 1 (env.keys i)] := rfl

theorem first_split_unique {α : Type} (p : α → Bool) (A B A2 B2 : List α) (x x2 : α)
    (h : A ++ x :: B = A2 ++ x2 :: B2) (hA : List.countP p A = 0)
    (hA2 : List.countP p A2 = 0) (hx : p x = true) (hx2 : p x2 = true) :
    A2 = A ∧ x2 = x ∧ B2 = B := by
  rcases List.append_eq_append_iff.mp h with ⟨a, h1, h2⟩ | ⟨a, h1, h2⟩
  · cases a with
    | nil =>
      simp at h2
      exact ⟨by simpa using h1, h2.1.symm, h2.2.symm⟩
    | cons y ys =>
      simp at h2
      rw [h1, ← h2.1] at hA2
      simp [List.countP_append, List.countP_cons, hx] at hA2
  · cases a with
    | nil =>
      simp at h2
      exact ⟨by simpa using h1.symm, h2.1, h2.2⟩
    | cons y ys =>
      simp at h2
      rw [h1, ← h2.1] at hA
      simp [List.countP_append, List.countP_cons, hx2] at hA

theorem filter_isRectangle_CirclesTransform (lib : Lib Mat Trk D F) (frame : Mat) :
    List.filter Call.isRectangle (CirclesTransform lib frame).2 = [] := by
  rw [List.filter_eq_nil_iff]
  exact List.countP_eq_zero.mp (countP_CirclesTransform lib Call.isRectangle
    (fun _ _ _ _ _ _ _ => rfl) (fun _ _ => rfl) (fun _ _ _ _ => rfl)
    (fun _ _ _ _ _ _ _ _ => rfl) frame)

/-- The calls of a pass through the loop body between its update and its
display of the frame: no display, one rectangle (at the updated bounding box,
in `Scalar(0, 255, 0)`) when the update succeeded and none when it failed. -/
theorem bodyTail_mid (lib : Lib Mat Trk D F) (env : Env Mat) (i : Nat)
    (v : Vars Mat Trk D) :
    ∃ mid, bodyTail lib env i v =
        mid ++ [Call.imshow "Port_Tracker" (loopBody lib env i v).vars.frame,
                Call.waitKey 1 (env.keys i)] ∧
      List.countP Call.isImshow mid = 0 ∧
      List.filter Call.isRectangle mid =
        (if (lib.update v.tracker v.frame v.bbox).1 then
          [Call.rectangle (CirclesTransform lib v.frame).1
            (lib.update v.tracker v.frame v.bbox).2.1 ⟨0, 255, 0⟩ 2 1]
         else []) ∧
      ((lib.update v.tracker v.frame v.bbox).1 = false →
        Call.putText (CirclesTransform lib v.frame).1 "Tracking failure detected" ⟨200, 80⟩
          Const.FONT_HERSHEY_SIMPLEX 1.00 ⟨0, 0, 255⟩ 2 ∈ mid) := by
  have h := countP_CirclesTransform lib Call.isImshow (fun _ _ _ _ _ _ _ => rfl)
    (fun _ _ => rfl) (fun _ _ _ _ => rfl) (fun _ _ _ _ _ _ _ _ => rfl) v.frame
  refine ⟨_, bodyTail_eq lib env i v, ?_, ?_, ?_⟩
  · cases hc : (lib.update v.tracker v.frame v.bbox).1 <;>
      simp [drawStatus, drawCaptions, List.countP_append, List.countP_cons,
        Call.isImshow, h]
  · cases hc : (lib.update v.tracker v.frame v.bbox).1 <;>
      simp [drawStatus, drawCaptions, List.filter_cons, Call.isRectangle,
        filter_isRectangle_CirclesTransform]
  · intro hc
    simp [drawStatus, hc]

theorem loopBody_frame_success (lib : Lib Mat Trk D F) (env : Env Mat) (i : Nat)
    (v : Vars Mat Trk D) (hc : (lib.update v.tracker v.frame v.bbox).1 = true) :
    (loopBody lib env i v).vars.frame =
      lib.putText
        (lib.putText
          (lib.putText
            (lib.rectangle (CirclesTransform lib v.frame).1
              (lib.update v.tracker v.frame v.bbox).2.1 ⟨0, 255, 0⟩ 2 1)
            "Refueling Port"
            ⟨lib.toInt (lib.update v.tracker v.frame v.bbox).2.1.x,
             lib.toInt (lib.update v.tracker v.frame v.bbox).2.1.y⟩
            Const.FONT_HERSHEY_SIMPLEX 0.75 ⟨255, 0, 0⟩ 2)
          "PORT TRACKER" ⟨100, 20⟩ Const.FONT_HERSHEY_SIMPLEX 0.75 ⟨255, 170, 50⟩ 2)
        ("FPS : " ++ toString (env.fps i)) ⟨200, 50⟩
        Const.FONT_HERSHEY_SIMPLEX 1.00 ⟨255, 170, 50⟩ 2 := by
  simp [loopBody, drawStatus, drawCaptions, hc]

/-- After every update call of `main` come the calls of that pass through the
loop body up to the display of its frame. -/
theorem main_after_update (lib : Lib Mat Trk D F) (env : Env Mat)
    (pre post : List (Call Mat D)) (img : Mat) (b : Rect2d D) (ok : Bool)
    (h : (main lib env).trace = pre ++ Call.update img b ok :: post) :
    ∃ k trk mid later, ok = (lib.update trk img b).1 ∧
      post = mid ++ Call.imshow "Port_Tracker" (loopBody lib env k ⟨img, b, trk⟩).vars.frame
        :: later ∧
      List.countP Call.isImshow mid = 0 ∧
      List.filter Call.isRectangle mid =
        (if ok then
          [Call.rectangle (CirclesTransform lib img).1 (lib.update trk img b).2.1
            ⟨0, 255, 0⟩ 2 1]
         else []) ∧
      (ok = false →
        Call.putText (CirclesTransform lib img).1 "Tracking failure detected" ⟨200, 80⟩
          Const.FONT_HERSHEY_SIMPLEX 1.00 ⟨0, 0, 255⟩ 2 ∈ mid) := by
  obtain ⟨k, trk, later, h1, h2⟩ := main_update_anatomy lib env pre post img b ok h
  obtain ⟨mid, h3, h4, h5, h6⟩ := bodyTail_mid lib env k ⟨img, b, trk⟩
  refine ⟨k, trk, mid, Call.waitKey 1 (env.keys k) :: later, h2, ?_, h4, ?_, ?_⟩
  · rw [h1, h3]; simp
  · rw [h2]; exact h5
  · intro hf
    exact h6 (h2.symm.trans hf)

/-- The calls of `main` around its tracker `init`, when the source opens and
the first read gives a frame. -/
theorem main_init_split (lib : Lib Mat Trk D F) (env : Env Mat) (hopen : env.opened = true)
    (hf : env.frames ≠ []) :
    (main lib env).trace =
      [Call.create, Call.capOpen "refuel_port.mp4", Call.isOpened true,
        Call.read (firstRead lib env).1,
        Call.rectangle (firstRead lib env).2.1 (initialBBox lib) ⟨255, 0, 0⟩ 2 1,
        Call.imshow "Port_Tracker" (startVars lib env).frame]
      ++ Call.init (startVars lib env).frame (initialBBox lib)
      :: (Call.waitKey 0 env.confirmKey
          :: ((loop lib env 0 (firstRead lib env).2.2 (startVars lib env)).2
            ++ [Call.release, Call.destroyAllWindows])) := by
  rw [main_opened lib env hopen hf]
  simp [setupCalls]

theorem countP_isInit_after_init (lib : Lib Mat Trk D F) (env : Env Mat) :
    List.countP Call.isInit
      (Call.waitKey 0 env.confirmKey
        :: ((loop lib env 0 (firstRead lib env).2.2 (startVars lib env)).2
          ++ [Call.release, Call.destroyAllWindows])) = 0 := by
  simp [List.countP_cons, List.countP_append, Call.isInit, countP_loop_isInit]

/-- What the `for` loop of `CirclesTransform` draws for the circles `cs`. -/
theorem drawCircles_spec (lib : Lib Mat Trk D F) (cs : List (Vec3f F)) :
    ∀ frame : Mat,
      (drawCircles lib cs frame).1 =
        cs.foldl (fun m c =>
          lib.circle
            (lib.circle m ⟨lib.cvRound c.c0, lib.cvRound c.c1⟩ 3 ⟨0, 225, 0⟩ (-1) 8 0)
            ⟨lib.cvRound c.c0, lib.cvRound c.c1⟩ (lib.cvRound c.c2) ⟨0, 0, 255⟩ 3 8 0) frame ∧
      List.filterMap Call.circleArgs (drawCircles lib cs frame).2 =
        cs.flatMap (fun c =>
          [((⟨lib.cvRound c.c0, lib.cvRound c.c1⟩ : Point), (3 : Int),
              (⟨0, 225, 0⟩ : Scalar), (-1 : Int)),
           (⟨lib.cvRound c.c0, lib.cvRound c.c1⟩, lib.cvRound c.c2, ⟨0, 0, 255⟩, 3)]) ∧
      List.filter Call.isDrawing (drawCircles lib cs frame).2 = (drawCircles lib cs frame).2 ∧
      List.filter Call.isCircle (drawCircles lib cs frame).2 = (drawCircles lib cs frame).2 ∧
      (drawCircles lib cs frame).2.length = 2 * cs.length := by
  induction cs with
  | nil => intro frame; simp [drawCircles]
  | cons c cs ih =>
    intro frame
    obtain ⟨h1, h2, h3, h4, h5⟩ := ih
      (lib.circle
        (lib.circle frame ⟨lib.cvRound c.c0, lib.cvRound c.c1⟩ 3 ⟨0, 225, 0⟩ (-1) 8 0)
        ⟨lib.cvRound c.c0, lib.cvRound c.c1⟩ (lib.cvRound c.c2) ⟨0, 0, 255⟩ 3 8 0)
    refine ⟨?_, ?_, ?_, ?_, ?_⟩
    · simp [drawCircles, h1]
    · simp [drawCircles, h2, Call.circleArgs, List.filterMap_cons]
    · simp [drawCircles, h3, Call.isDrawing, List.filter_cons]
    · simp [drawCircles, h4, Call.isCircle, List.filter_cons]
    · simp [drawCircles, h5]; omega

/-- The circles `CirclesTransform` draws do not depend on `GaussianBlur`. -/
theorem CirclesTransform_ignores_blur (lib : Lib Mat Trk D F)
    (blur : Mat → Size → Int → Int → Mat) (frame : Mat) :
    (CirclesTransform { lib with GaussianBlur := blur } frame).1 =
      (CirclesTransform lib frame).1 := by
  have h : ∀ (cs : List (Vec3f F)) (m : Mat),
      (drawCircles { lib with GaussianBlur := blur } cs m).1 = (drawCircles lib cs m).1 := by
    intro cs
    induction cs with
    | nil => intro m; rfl
    | cons c cs ih => intro m; simp [drawCircles, ih]
  simp [CirclesTransform, h]

end Lemmas

/-! ## The claims -/

section Claims

variable {Mat Trk D F : Type}

/-- C1: when the frame source fails to open (`isOpened` is false after
`open`), `main` returns exit status 1, and the calls it made are the tracker
creation, the open, the `isOpened` test and the console message: no frame
read, no `imshow`, no `waitKey`, no tracker `init` and no tracker `update`. -/
theorem C1_source_unavailable (lib : Lib Mat Trk D F) (env : Env Mat)
    (h : env.opened = false) :
    (main lib env).exit = some 1 ∧
    (main lib env).trace =
      [Call.create, Call.capOpen "refuel_port.mp4", Call.isOpened false,
       Call.cout "ERROR! No video was found"] ∧
    List.countP Call.isRead (main lib env).trace = 0 ∧
    List.countP Call.isImshow (main lib env).trace = 0 ∧
    List.countP Call.isWaitKey (main lib env).trace = 0 ∧
    List.countP Call.isInit (main lib env).trace = 0 ∧
    List.countP Call.isUpdate (main lib env).trace = 0 := by
  rw [main_closed lib env h]
  refine ⟨rfl, rfl, rfl, rfl, rfl, rfl, rfl⟩

/-- Witness of C1 on the run `closedEnv`. -/
theorem C1_source_unavailable_witness :
    closedEnv.opened = false ∧ (main demoLib closedEnv).exit = some 1 ∧
    List.countP Call.isRead (main demoLib closedEnv).trace = 0 :=
  ⟨rfl, (C1_source_unavailable demoLib closedEnv rfl).1,
    (C1_source_unavailable demoLib closedEnv rfl).2.2.1⟩

/-- C2: in a run in which the source opens and loop iteration `j` (from 0) is
reached, the key `k` polled in that iteration splits the calls of `main` after
`j + 2` frame reads and `j + 1` tracker updates.  No frame read and no tracker
update follows the poll exactly when `k` is 27 (Esc) or 113 (`q`), and then
only the release of the capture and of the windows follow and `main` returns
0; after any other key the next call is a frame read. -/
theorem C2_quit_key_ends_loop (lib : Lib Mat Trk D F) (env : Env Mat) (j : Nat)
    (hopen : env.opened = true) (hj : j < env.frames.tail.length)
    (hreach : ∀ t, t < j → ¬ (env.keys t = 27 ∨ env.keys t = 113)) :
    (main lib env).exit = some 0 ∧
    ∃ pre post, (main lib env).trace = pre ++ Call.waitKey 1 (env.keys j) :: post ∧
      List.countP Call.isRead pre = j + 2 ∧ List.countP Call.isUpdate pre = j + 1 ∧
      ((List.countP Call.isRead post = 0 ∧ List.countP Call.isUpdate post = 0) ↔
        (env.keys j = 27 ∨ env.keys j = 113)) ∧
      ((env.keys j = 27 ∨ env.keys j = 113) →
        post = [Call.release, Call.destroyAllWindows]) ∧
      (¬ (env.keys j = 27 ∨ env.keys j = 113) → ∃ ok rest, post = Call.read ok :: rest) := by
  have hf : env.frames ≠ [] := by
    intro h0
    rw [h0] at hj
    exact absurd hj (Nat.not_lt_zero j)
  rw [main_opened lib env hopen hf]
  refine ⟨rfl, ?_⟩
  have hj2 : j < (firstRead lib env).2.2.length := by rw [firstRead_rest]; exact hj
  have hreach2 : ∀ t, t < j → ¬ (env.keys (0 + t) = 27 ∨ env.keys (0 + t) = 113) := by
    intro t ht; simpa using hreach t ht
  obtain ⟨pre, post, hsplit, hr, hu, hq, hn⟩ :=
    loop_iteration lib env j 0 (firstRead lib env).2.2 (startVars lib env) hj2 hreach2
  simp only [Nat.zero_add] at hsplit hq hn
  refine ⟨setupCalls lib env ++ pre, post ++ [Call.release, Call.destroyAllWindows],
    ?_, ?_, ?_, ?_, ?_, ?_⟩
  · simp [hsplit]
  · simp [List.countP_append, hr, setupCalls, List.countP_cons, Call.isRead]
  · simp [List.countP_append, hu, setupCalls, List.countP_cons, Call.isUpdate]
  · constructor
    · intro hz
      by_contra hk
      obtain ⟨ok, rest, hp⟩ := hn hk
      rw [hp] at hz
      simp [List.countP_cons, Call.isRead] at hz
    · intro hk
      rw [hq hk]
      exact ⟨rfl, rfl⟩
  · intro hk
    rw [hq hk]; rfl
  · intro hk
    obtain ⟨ok, rest, hp⟩ := hn hk
    exact ⟨ok, rest ++ [Call.release, Call.destroyAllWindows], by simp [hp]⟩

/-- Witness of C2 on the run `quitAtOnce`, at iteration 0. -/
theorem C2_quit_key_ends_loop_witness :
    quitAtOnce.opened = true ∧ 0 < quitAtOnce.frames.tail.length ∧
    (main demoLib quitAtOnce).exit = some 0 :=
  ⟨rfl, by decide,
    (C2_quit_key_ends_loop demoLib quitAtOnce 0 rfl (by decide)
      (fun t ht => absurd ht (Nat.not_lt_zero t))).1⟩

/-- C3: when the source opens and delivers `n ≥ 1` frames and none of the keys
polled in the first `n - 1` loop iterations is a quit key, the loop ends by
itself on the failed read: `main` makes `n + 1` frame reads, the last of them
the failed one, right before the release of the capture and of the windows,
exactly `n - 1` tracker updates, polls no quit key and returns exit status
0. -/
theorem C3_end_of_stream (lib : Lib Mat Trk D F) (env : Env Mat) (n : Nat)
    (hopen : env.opened = true) (hn : env.frames.length = n) (h1 : 1 ≤ n)
    (hkeys : ∀ t, t < n - 1 → ¬ (env.keys t = 27 ∨ env.keys t = 113)) :
    (main lib env).exit = some 0 ∧
    List.countP Call.isUpdate (main lib env).trace = n - 1 ∧
    List.countP Call.isRead (main lib env).trace = n + 1 ∧
    List.countP Call.isQuitPoll (main lib env).trace = 0 ∧
    ∃ pre, (main lib env).trace =
      pre ++ [Call.read false, Call.release, Call.destroyAllWindows] := by
  have hf : env.frames ≠ [] := by
    intro h0
    rw [h0] at hn
    rw [← hn] at h1
    simp at h1
  rw [main_opened lib env hopen hf]
  refine ⟨rfl, ?_⟩
  have hlen : (firstRead lib env).2.2.length = n - 1 := by
    rw [firstRead_rest, List.length_tail, hn]
  have hkeys2 : ∀ t, t < (firstRead lib env).2.2.length →
      ¬ (env.keys (0 + t) = 27 ∨ env.keys (0 + t) = 113) := by
    intro t ht
    rw [hlen] at ht
    simpa using hkeys t ht
  obtain ⟨hr, hu, hq, pre, hpre⟩ :=
    loop_exhaust lib env (firstRead lib env).2.2 0 (startVars lib env) hkeys2
  refine ⟨?_, ?_, ?_, setupCalls lib env ++ pre, ?_⟩
  · simp [List.countP_append, hu, hlen, setupCalls, List.countP_cons, Call.isUpdate]
  · simp [List.countP_append, hr, hlen, setupCalls, List.countP_cons, Call.isRead]
    omega
  · simp [List.countP_append, hq, setupCalls, List.countP_cons, Call.isQuitPoll]
  · simp [hpre]

/-- Witness of C3 on the run `threeFrames`, with `n = 3`. -/
theorem C3_end_of_stream_witness :
    threeFrames.opened = true ∧ threeFrames.frames.length = 3 ∧
    (main demoLib threeFrames).exit = some 0 ∧
    List.countP Call.isUpdate (main demoLib threeFrames).trace = 3 - 1 :=
  ⟨rfl, rfl,
    (C3_end_of_stream demoLib threeFrames 3 rfl rfl (by decide)
      (fun _ _ => by simp [threeFrames])).1,
    (C3_end_of_stream demoLib threeFrames 3 rfl rfl (by decide)
      (fun _ _ => by simp [threeFrames])).2.1⟩

/-- C4, as stated, fails: in the run `noFrames` the source opens and the
first read gives no frame; `main` draws onto the empty frame and calls
`imshow`, which throws, so the calls of the run hold no tracker `init` and
`main` does not return. -/
theorem C4_no_init_without_first_frame :
    noFrames.opened = true ∧
    (main demoLib noFrames).trace =
      [Call.create, Call.capOpen "refuel_port.mp4", Call.isOpened true, Call.read false,
       Call.rectangle [] ⟨760, 400, 270, 200⟩ ⟨255, 0, 0⟩ 2 1,
       Call.imshow "Port_Tracker" [4]] ∧
    (main demoLib noFrames).exit = none ∧
    ¬ (List.countP Call.isInit (main demoLib noFrames).trace = 1) :=
  ⟨rfl, rfl, rfl, by decide⟩

/-- C4, amended: in a run in which the source opens and the first read gives a
frame, the calls of `main` contain exactly one tracker `init`; one frame read
(the first) and no tracker update come before it.  In every run, an update
call has exactly one `init` call before it, so no update happens without a
preceding `init`. -/
theorem C4_single_init_after_first_frame (lib : Lib Mat Trk D F) (env : Env Mat) :
    (env.opened = true → env.frames ≠ [] →
      List.countP Call.isInit (main lib env).trace = 1 ∧
      ∃ pre img box post, (main lib env).trace = pre ++ Call.init img box :: post ∧
        List.countP Call.isRead pre = 1 ∧ List.countP Call.isInit pre = 0 ∧
        List.countP Call.isUpdate pre = 0 ∧ List.countP Call.isInit post = 0) ∧
    (∀ pre c post, (main lib env).trace = pre ++ c :: post → c.isUpdate = true →
      List.countP Call.isInit pre = 1) := by
  have hsplit := main_init_split lib env
  have hpost := countP_isInit_after_init lib env
  have hcount : env.opened = true → env.frames ≠ [] →
      List.countP Call.isInit (main lib env).trace = 1 := by
    intro hopen hf
    rw [hsplit hopen hf]
    simp [List.countP_cons, List.countP_append, Call.isInit, countP_loop_isInit]
  refine ⟨fun hopen hf =>
    ⟨hcount hopen hf, _, _, _, _, hsplit hopen hf, ?_, ?_, ?_, hpost⟩, ?_⟩
  · simp [List.countP_cons, Call.isRead]
  · simp [List.countP_cons, Call.isInit]
  · simp [List.countP_cons, Call.isUpdate]
  · intro pre c post h hc
    by_cases hrun : env.opened = true ∧ env.frames ≠ []
    case neg =>
      have h0 : List.countP Call.isUpdate (pre ++ c :: post) = 0 := by
        rw [← h]; exact (main_no_loop_of_not lib env hrun).1
      simp only [List.countP_append, List.countP_cons, hc, if_true] at h0
      omega
    case pos =>
      have hge : 1 ≤ List.countP Call.isInit pre :=
        split_before Call.isUpdate Call.isInit
          [Call.create, Call.capOpen "refuel_port.mp4", Call.isOpened true,
            Call.read (firstRead lib env).1,
            Call.rectangle (firstRead lib env).2.1 (initialBBox lib) ⟨255, 0, 0⟩ 2 1,
            Call.imshow "Port_Tracker" (startVars lib env).frame]
          _ (Call.init (startVars lib env).frame (initialBBox lib)) rfl
          rfl rfl pre post c ((hsplit hrun.1 hrun.2).symm.trans h) hc
      have hle : List.countP Call.isInit pre ≤ 1 := by
        have := hcount hrun.1 hrun.2
        rw [h, List.countP_append] at this
        omega
      omega

/-- Witness of C4, amended, on the run `threeFrames`. -/
theorem C4_single_init_after_first_frame_witness :
    threeFrames.opened = true ∧ threeFrames.frames ≠ [] ∧
    List.countP Call.isInit (main demoLib threeFrames).trace = 1 ∧
    List.countP Call.isUpdate (main demoLib threeFrames).trace = 2 :=
  ⟨rfl, by decide,
    ((C4_single_init_after_first_frame demoLib threeFrames).1 rfl (by decide)).1, rfl⟩

/-- C6, as stated, fails: in the run `twoFrames` with the library `demoLib`,
whose every update reports failure, it is not so that after every update call
a rectangle is drawn before the frame is displayed. -/
theorem C6_no_box_after_failed_update :
    ¬ (∀ pre img b ok post,
        (main demoLib twoFrames).trace = pre ++ Call.update img b ok :: post →
        ∃ mid shown later, post = mid ++ Call.imshow "Port_Tracker" shown :: later ∧
          List.countP Call.isImshow mid = 0 ∧ 1 ≤ List.countP Call.isRectangle mid) := by
  intro hall
  have h : (main demoLib twoFrames).trace =
      (main demoLib twoFrames).trace.take 10
        ++ Call.update [101] (initialBBox demoLib) false
        :: (main demoLib twoFrames).trace.drop 11 := rfl
  obtain ⟨mid, shown, later, h1, h2, h3⟩ := hall _ _ _ _ _ h
  obtain ⟨k, trk, mid0, later0, _, g2, g3, g4, _⟩ :=
    main_after_update demoLib twoFrames _ _ _ _ _ h
  obtain ⟨e1, _, _⟩ := first_split_unique Call.isImshow mid0 later0 mid later _ _
    (g2.symm.trans h1) g3 h2 rfl rfl
  rw [e1, List.countP_eq_length_filter, g4] at h3
  simp at h3

/-- C6, amended: after an update call of `main` that returned `true`, exactly
one rectangle is drawn before the frame is displayed, onto the annotated frame,
at the bounding box that update gave back and in `Scalar(0, 255, 0)`, and the
displayed frame carries it; after an update call that returned `false`, no
rectangle is drawn before the frame is displayed, and the failure message is
drawn in `Scalar(0, 0, 255)`. -/
theorem C6_box_drawn_on_success_only (lib : Lib Mat Trk D F) (env : Env Mat) :
    (∀ pre img b post, (main lib env).trace = pre ++ Call.update img b true :: post →
      ∃ trk mid shown later k,
        (lib.update trk img b).1 = true ∧
        post = mid ++ Call.imshow "Port_Tracker" shown :: later ∧
        List.countP Call.isImshow mid = 0 ∧
        List.filter Call.isRectangle mid =
          [Call.rectangle (CirclesTransform lib img).1 (lib.update trk img b).2.1
            ⟨0, 255, 0⟩ 2 1] ∧
        shown =
          lib.putText
            (lib.putText
              (lib.putText
                (lib.rectangle (CirclesTransform lib img).1 (lib.update trk img b).2.1
                  ⟨0, 255, 0⟩ 2 1)
                "Refueling Port"
                ⟨lib.toInt (lib.update trk img b).2.1.x, lib.toInt (lib.update trk img b).2.1.y⟩
                Const.FONT_HERSHEY_SIMPLEX 0.75 ⟨255, 0, 0⟩ 2)
              "PORT TRACKER" ⟨100, 20⟩ Const.FONT_HERSHEY_SIMPLEX 0.75 ⟨255, 170, 50⟩ 2)
            ("FPS : " ++ toString (env.fps k)) ⟨200, 50⟩
            Const.FONT_HERSHEY_SIMPLEX 1.00 ⟨255, 170, 50⟩ 2) ∧
    (∀ pre img b post, (main lib env).trace = pre ++ Call.update img b false :: post →
      ∃ mid shown later,
        post = mid ++ Call.imshow "Port_Tracker" shown :: later ∧
        List.countP Call.isImshow mid = 0 ∧
        List.countP Call.isRectangle mid = 0 ∧
        Call.putText (CirclesTransform lib img).1 "Tracking failure detected" ⟨200, 80⟩
          Const.FONT_HERSHEY_SIMPLEX 1.00 ⟨0, 0, 255⟩ 2 ∈ mid) := by
  constructor
  · intro pre img b post h
    obtain ⟨k, trk, mid, later, hk1, hk2, hk3, hk4, _⟩ :=
      main_after_update lib env pre post img b true h
    exact ⟨trk, mid, _, later, k, hk1.symm, hk2, hk3, by simpa using hk4,
      loopBody_frame_success lib env k ⟨img, b, trk⟩ hk1.symm⟩
  · intro pre img b post h
    obtain ⟨k, trk, mid, later, _, hk2, hk3, hk4, hk5⟩ :=
      main_after_update lib env pre post img b false h
    refine ⟨mid, _, later, hk2, hk3, ?_, hk5 rfl⟩
    rw [List.countP_eq_length_filter, hk4]
    simp

/-- Witness of C6, amended, on the run `twoFrames` with every update
succeeding: the one rectangle between the update and the display is the green
one at the bounding box. -/
theorem C6_box_drawn_on_success_only_witness :
    ∃ mid shown later,
      List.drop 11 (main demoLibOk twoFrames).trace =
        mid ++ Call.imshow "Port_Tracker" shown :: later ∧
      List.countP Call.isImshow mid = 0 ∧
      List.filter Call.isRectangle mid =
        [Call.rectangle [101] ⟨760, 400, 270, 200⟩ ⟨0, 255, 0⟩ 2 1] := by
  have h : (main demoLibOk twoFrames).trace =
      (main demoLibOk twoFrames).trace.take 10
        ++ Call.update [101] (initialBBox demoLibOk) true
        :: (main demoLibOk twoFrames).trace.drop 11 := rfl
  obtain ⟨_, mid, shown, later, _, _, h2, h3, h4, _⟩ :=
    (C6_box_drawn_on_success_only demoLibOk twoFrames).1 _ _ _ _ h
  exact ⟨mid, shown, later, h2, h3, h4⟩

/-- C7 fails on the code: `CirclesTransform` hands the grayscale image, not the
blurred one, to `HoughCircles`.  With the library `demoLib`, whose detector
finds a circle exactly in a blurred image, on the frame `[100]`: the image of
the one `HoughCircles` call is the grayscale image `[1, 100]`, the blurred
image `[2, 1, 100]` differs from it and holds a circle for the detector, and
`CirclesTransform` draws nothing. -/
theorem C7_detector_gets_unblurred_image :
    List.filter Call.isHoughCircles (CirclesTransform demoLib [100]).2 =
      [Call.HoughCircles [1, 100] Const.CV_HOUGH_GRADIENT 1 0 80 55 0 0] ∧
    demoLib.cvtColor [100] Const.COLOR_BGR2GRAY = [1, 100] ∧
    demoLib.GaussianBlur (demoLib.cvtColor [100] Const.COLOR_BGR2GRAY) ⟨5, 5⟩ 2 2
      = [2, 1, 100] ∧
    demoLib.HoughCircles [2, 1, 100] Const.CV_HOUGH_GRADIENT 1 0 80 55 0 0 = [⟨10, 20, 5⟩] ∧
    (CirclesTransform demoLib [100]).1 = [100] ∧
    List.filter Call.isDrawing (CirclesTransform demoLib [100]).2 = [] :=
  ⟨rfl, rfl, rfl, rfl, rfl, rfl⟩

/-- C8: for the list of `n` circles the detector returns, `CirclesTransform`
makes exactly `2 n` drawing calls, all of them `circle` calls and in the order
of detection: for each circle a dot of radius 3, filled (thickness -1), at the
rounded centre, then an outline (thickness 3) of the rounded radius at the same
centre; the frame afterwards is the frame with these drawn in turn, and with no
circle detected it is the frame unchanged. -/
theorem C8_circle_markers (lib : Lib Mat Trk D F) (frame : Mat) :
    (List.filter Call.isDrawing (CirclesTransform lib frame).2).length =
      2 * (lib.HoughCircles (lib.cvtColor frame Const.COLOR_BGR2GRAY) Const.CV_HOUGH_GRADIENT 1
        (Int.tdiv (lib.rows (lib.cvtColor frame Const.COLOR_BGR2GRAY)) 8) 80 55 0 0).length ∧
    List.filter Call.isDrawing (CirclesTransform lib frame).2 =
      List.filter Call.isCircle (CirclesTransform lib frame).2 ∧
    List.filterMap Call.circleArgs (CirclesTransform lib frame).2 =
      (lib.HoughCircles (lib.cvtColor frame Const.COLOR_BGR2GRAY) Const.CV_HOUGH_GRADIENT 1
        (Int.tdiv (lib.rows (lib.cvtColor frame Const.COLOR_BGR2GRAY)) 8) 80 55 0 0).flatMap
        (fun c =>
          [((⟨lib.cvRound c.c0, lib.cvRound c.c1⟩ : Point), (3 : Int),
              (⟨0, 225, 0⟩ : Scalar), (-1 : Int)),
           (⟨lib.cvRound c.c0, lib.cvRound c.c1⟩, lib.cvRound c.c2, ⟨0, 0, 255⟩, 3)]) ∧
    (CirclesTransform lib frame).1 =
      (lib.HoughCircles (lib.cvtColor frame Const.COLOR_BGR2GRAY) Const.CV_HOUGH_GRADIENT 1
        (Int.tdiv (lib.rows (lib.cvtColor frame Const.COLOR_BGR2GRAY)) 8) 80 55 0 0).foldl
        (fun m c =>
          lib.circle
            (lib.circle m ⟨lib.cvRound c.c0, lib.cvRound c.c1⟩ 3 ⟨0, 225, 0⟩ (-1) 8 0)
            ⟨lib.cvRound c.c0, lib.cvRound c.c1⟩ (lib.cvRound c.c2) ⟨0, 0, 255⟩ 3 8 0) frame ∧
    (lib.HoughCircles (lib.cvtColor frame Const.COLOR_BGR2GRAY) Const.CV_HOUGH_GRADIENT 1
        (Int.tdiv (lib.rows (lib.cvtColor frame Const.COLOR_BGR2GRAY)) 8) 80 55 0 0 = [] →
      (CirclesTransform lib frame).1 = frame ∧
      List.filter Call.isDrawing (CirclesTransform lib frame).2 = []) := by
  obtain ⟨h1, h2, h3, h4, h5⟩ := drawCircles_spec lib
    (lib.HoughCircles (lib.cvtColor frame Const.COLOR_BGR2GRAY) Const.CV_HOUGH_GRADIENT 1
      (Int.tdiv (lib.rows (lib.cvtColor frame Const.COLOR_BGR2GRAY)) 8) 80 55 0 0) frame
  refine ⟨?_, ?_, ?_, ?_, ?_⟩
  · simp [CirclesTransform, List.filter_cons, Call.isDrawing, h3, h5]
  · simp [CirclesTransform, List.filter_cons, Call.isDrawing, Call.isCircle, h3, h4]
  · simp [CirclesTransform, List.filterMap_cons, Call.circleArgs, h2]
  · simp [CirclesTransform, h1]
  · intro he
    simp [CirclesTransform, he, drawCircles, List.filter_cons, Call.isDrawing]

/-- C9, as stated, fails: in the run `noFrames` the source opens and the
first read gives no frame; `main` draws the initial region onto the empty
frame and calls `imshow` with it, which throws: the run makes no tracker
`init` and no `waitKey` call and `main` does not return. -/
theorem C9_frameless_run_ends_at_imshow :
    noFrames.opened = true ∧ noFrames.frames = [] ∧
    (main demoLib noFrames).trace =
      [Call.create, Call.capOpen "refuel_port.mp4", Call.isOpened true, Call.read false,
       Call.rectangle [] ⟨760, 400, 270, 200⟩ ⟨255, 0, 0⟩ 2 1,
       Call.imshow "Port_Tracker" [4]] ∧
    List.countP Call.isInit (main demoLib noFrames).trace = 0 ∧
    List.countP Call.isWaitKey (main demoLib noFrames).trace = 0 ∧
    (main demoLib noFrames).exit = none :=
  ⟨rfl, rfl, rfl, rfl, rfl, rfl⟩

/-- C9, amended: in a run in which the source opens, `main` does not look at
the result of the first frame read.  When the read gives a frame `f`, and
equally when the source has no frame and the read fails, the next calls are
the drawing of the initial region onto the frame and `imshow` with it.  When
the read gave a frame, the tracker `init` with that frame and the key wait
`waitKey(0)` follow. -/
theorem C9_first_read_unchecked (lib : Lib Mat Trk D F) (env : Env Mat)
    (hopen : env.opened = true) :
    (∀ f fs, env.frames = f :: fs →
      ∃ rest, (main lib env).trace =
        [Call.create, Call.capOpen "refuel_port.mp4", Call.isOpened true, Call.read true,
         Call.rectangle f (initialBBox lib) ⟨255, 0, 0⟩ 2 1,
         Call.imshow "Port_Tracker" (lib.rectangle f (initialBBox lib) ⟨255, 0, 0⟩ 2 1),
         Call.init (lib.rectangle f (initialBBox lib) ⟨255, 0, 0⟩ 2 1) (initialBBox lib),
         Call.waitKey 0 env.confirmKey] ++ rest) ∧
    (env.frames = [] →
      ∃ rest, (main lib env).trace =
        [Call.create, Call.capOpen "refuel_port.mp4", Call.isOpened true, Call.read false,
         Call.rectangle (lib.readFail lib.emptyMat) (initialBBox lib) ⟨255, 0, 0⟩ 2 1,
         Call.imshow "Port_Tracker"
           (lib.rectangle (lib.readFail lib.emptyMat) (initialBBox lib) ⟨255, 0, 0⟩ 2 1)]
        ++ rest) := by
  constructor
  · intro f fs hf
    have hne : env.frames ≠ [] := by rw [hf]; exact List.cons_ne_nil f fs
    rw [main_opened lib env hopen hne]
    refine ⟨(loop lib env 0 (firstRead lib env).2.2 (startVars lib env)).2
      ++ [Call.release, Call.destroyAllWindows], ?_⟩
    simp [setupCalls, startVars, firstRead, hf]
  · intro hf
    rw [main_frameless lib env hopen hf]
    exact ⟨[], by simp⟩

/-- Witness of C9, amended, on the run `twoFrames`. -/
theorem C9_first_read_unchecked_witness :
    twoFrames.opened = true ∧ twoFrames.frames = [100] :: [[101]] ∧
    ∃ rest, (main demoLib twoFrames).trace =
      [Call.create, Call.capOpen "refuel_port.mp4", Call.isOpened true, Call.read true,
       Call.rectangle [100] (initialBBox demoLib) ⟨255, 0, 0⟩ 2 1,
       Call.imshow "Port_Tracker"
         (demoLib.rectangle [100] (initialBBox demoLib) ⟨255, 0, 0⟩ 2 1),
       Call.init (demoLib.rectangle [100] (initialBBox demoLib) ⟨255, 0, 0⟩ 2 1)
         (initialBBox demoLib),
       Call.waitKey 0 twoFrames.confirmKey] ++ rest :=
  ⟨rfl, rfl, (C9_first_read_unchecked demoLib twoFrames rfl).1 [100] [[101]] rfl⟩

/-- C10: in a run in which the source opens and the first read gives the frame
`f`, the one tracker `init` call of `main` gets the frame
`rectangle(f, Rect2d(760, 400, 270, 200), Scalar(255, 0, 0), 2, 1)`, the first
frame with the initial region drawn onto it, and the region
`Rect2d(760, 400, 270, 200)`; the `rectangle` call and the display of its
result come right before it. -/
theorem C10_init_gets_annotated_frame (lib : Lib Mat Trk D F) (env : Env Mat)
    (f : Mat) (fs : List Mat) (hopen : env.opened = true) (hf : env.frames = f :: fs) :
    List.filter Call.isInit (main lib env).trace =
      [Call.init
        (lib.rectangle f ⟨lib.ofInt 760, lib.ofInt 400, lib.ofInt 270, lib.ofInt 200⟩
          ⟨255, 0, 0⟩ 2 1)
        ⟨lib.ofInt 760, lib.ofInt 400, lib.ofInt 270, lib.ofInt 200⟩] ∧
    ∃ pre post, (main lib env).trace =
      pre ++
      [Call.rectangle f ⟨lib.ofInt 760, lib.ofInt 400, lib.ofInt 270, lib.ofInt 200⟩
         ⟨255, 0, 0⟩ 2 1,
       Call.imshow "Port_Tracker"
         (lib.rectangle f ⟨lib.ofInt 760, lib.ofInt 400, lib.ofInt 270, lib.ofInt 200⟩
           ⟨255, 0, 0⟩ 2 1),
       Call.init
         (lib.rectangle f ⟨lib.ofInt 760, lib.ofInt 400, lib.ofInt 270, lib.ofInt 200⟩
           ⟨255, 0, 0⟩ 2 1)
         ⟨lib.ofInt 760, lib.ofInt 400, lib.ofInt 270, lib.ofInt 200⟩] ++ post := by
  have hl : List.filter Call.isInit
      (loop lib env 0 (firstRead lib env).2.2 (startVars lib env)).2 = [] := by
    rw [List.filter_eq_nil_iff]
    exact List.countP_eq_zero.mp (countP_loop_isInit lib env _ _ _)
  have hne : env.frames ≠ [] := by rw [hf]; exact List.cons_ne_nil f fs
  rw [main_opened lib env hopen hne]
  constructor
  · simp only [List.filter_append, hl]
    simp [setupCalls, startVars, firstRead, hf, initialBBox, List.filter_cons, Call.isInit]
  · refine ⟨[Call.create, Call.capOpen "refuel_port.mp4", Call.isOpened true,
      Call.read true],
      Call.waitKey 0 env.confirmKey
        :: ((loop lib env 0 (firstRead lib env).2.2 (startVars lib env)).2
          ++ [Call.release, Call.destroyAllWindows]), ?_⟩
    simp [setupCalls, startVars, firstRead, hf, initialBBox]

/-- Witness of C10 on the run `threeFrames`: the frame given to `init` is
`[4, 100]`, the first frame `[100]` with a rectangle drawn. -/
theorem C10_init_gets_annotated_frame_witness :
    threeFrames.opened = true ∧ threeFrames.frames = [100] :: [[101], [102]] ∧
    List.filter Call.isInit (main demoLib threeFrames).trace =
      [Call.init [4, 100] ⟨760, 400, 270, 200⟩] :=
  ⟨rfl, rfl, (C10_init_gets_annotated_frame demoLib threeFrames [100] [[101], [102]] rfl rfl).1⟩

end Claims

end Capture
